import Mathlib

/-!
Shallow embedding of `src/demo.ts` from the
`polkadot-asset-ordering-bug-demo` repository.

The script builds `transferAssetsUsingTypeAndThen` extrinsic parameters
in two asset orderings, submits each as a dry run against a remote
Polkadot Asset Hub node, and logs the results.  Pure object construction
is embedded as Lean functions on inductive data types; the effectful
driver (`testAssetOrdering`, `demonstrateAssetOrderingBug`) is embedded
as a trace function: the external world (connection setup, dry-run
responses, the process environment) is an explicit `Env` record, and the
driver maps it to the list of observable events (remote calls, console
output, disconnect, process exit) in program order.

Notes on the embedding:
* JavaScript object identity (`==` on objects) is modelled by structural
  equality on `Location`; inside this program the only locations ever
  compared are the literal constants, for which the two notions agree.
* The camelCase / PascalCase spelling variants of codec keys
  (`globalConsensus` vs `GlobalConsensus`) are normalised by the
  polkadot-js codec and are conflated here into one constructor.
-/

namespace Demo

/-- XCM junction, covering the junction shapes occurring in `demo.ts`. -/
inductive Junction where
  | palletInstance (value : Nat)
  | generalIndex (value : Nat)
  | globalConsensusKusama
  | parachain (value : Nat)
  | accountId32 (network : Option String) (id : String)
deriving DecidableEq, Repr

/-- Interior of a location: `"Here"`, or an `x1`/`x2` junction list. -/
inductive Interior where
  | here
  | x1 (junctions : List Junction)
  | x2 (junctions : List Junction)
deriving DecidableEq, Repr

/-- A (multi-)location: `{parents, interior}`. -/
structure Location where
  parents : Nat
  interior : Interior
deriving DecidableEq, Repr

/-- Asset descriptor shape shared by `WUD_ASSET` and `KSM_ASSET`
(`KSM_ASSET` has no `assetId` field, hence the `Option`). -/
structure AssetInfo where
  token : String
  name : String
  symbol : String
  decimals : Nat
  location : Location
  assetId : Option String
deriving DecidableEq, Repr

/-- `WUD_ASSET` constant from `demo.ts` lines 21-36. -/
def WUD_ASSET : AssetInfo :=
  { token := "0x5fdcd48f09fb67de3d202cd854b372aec1100ed5"
  , name := "GAVUN WUD"
  , symbol := "WUD"
  , decimals := 10
  , location :=
      { parents := 0
      , interior := .x2 [.palletInstance 50, .generalIndex 31337] }
  , assetId := some "31337" }

/-- `KSM_ASSET` constant from `demo.ts` lines 39-56. -/
def KSM_ASSET : AssetInfo :=
  { token := "0x12bbfdc9e813614eef8dc8a2560b0efbeaf7c2ab"
  , name := "Kusama"
  , symbol := "KSM"
  , decimals := 12
  , location :=
      { parents := 2
      , interior := .x1 [.globalConsensusKusama] }
  , assetId := none }

/-- `NATIVE_TOKEN_LOCATION` constant from `demo.ts` lines 59-62. -/
def NATIVE_TOKEN_LOCATION : Location :=
  { parents := 1, interior := .here }

/-- `KUSAMA_ASSET_HUB_PARA_ID` constant from `demo.ts` line 65. -/
def KUSAMA_ASSET_HUB_PARA_ID : Nat := 1000

/-- The single XCM instruction shape used by `createDummyXCM`. -/
inductive XcmInstruction where
  | depositAsset (wildAllCounted : String) (beneficiary : Location)
deriving DecidableEq, Repr

/-- A versioned XCM message: `{v4: [...]}`. -/
structure VersionedXcm where
  v4 : List XcmInstruction
deriving DecidableEq, Repr

/-- `createDummyXCM` from `demo.ts` lines 70-93. -/
def createDummyXCM (beneficiary : String) : VersionedXcm :=
  { v4 :=
      [ .depositAsset "2"
          { parents := 0
          , interior := .x1 [.accountId32 none beneficiary] } ] }

/-- Fungibility of an asset entry: `{Fungible: amount}`. -/
inductive Fungibility where
  | fungible (amount : String)
deriving DecidableEq, Repr

/-- One entry of the v4 assets list: `{id, fun}`. -/
structure AssetV4 where
  id : Location
  «fun» : Fungibility
deriving DecidableEq, Repr

/-- The versioned assets parameter: `{v4: [...]}`. -/
structure VersionedAssets where
  v4 : List AssetV4
deriving DecidableEq, Repr

/-- A versioned location parameter: `{v4: location}`. -/
structure VersionedLocation where
  v4 : Location
deriving DecidableEq, Repr

/-- The seven arguments handed to
`api.tx.polkadotXcm.transferAssetsUsingTypeAndThen` in `demo.ts`
lines 155-163, in order. -/
structure TransferParams where
  destination : VersionedLocation
  assets : VersionedAssets
  reserveType : String
  feeAsset : VersionedLocation
  feeReserveType : String
  customXcm : VersionedXcm
  weightLimit : String
deriving DecidableEq, Repr

/-- `createTransferExtrinsic` from `demo.ts` lines 98-164 (the `api`
argument only dispatches the call and carries no data; it is dropped).
The order flag is the string union `"token-first" | "dot-first"`. -/
def createTransferExtrinsic (tokenLocation : Location)
    (amount destFee : String) (assetOrder : String)
    (beneficiary : String) : TransferParams :=
  let destination : VersionedLocation :=
    { v4 :=
        { parents := 2
        , interior :=
            .x2 [.globalConsensusKusama, .parachain KUSAMA_ASSET_HUB_PARA_ID] } }
  let reserveType : String :=
    if tokenLocation = KSM_ASSET.location then "DestinationReserve"
    else "LocalReserve"
  let assets : VersionedAssets :=
    if assetOrder = "token-first" then
      { v4 :=
          [ { id := tokenLocation, «fun» := .fungible amount }
          , { id := NATIVE_TOKEN_LOCATION, «fun» := .fungible destFee } ] }
    else
      { v4 :=
          [ { id := NATIVE_TOKEN_LOCATION, «fun» := .fungible destFee }
          , { id := tokenLocation, «fun» := .fungible amount } ] }
  let feeAsset : VersionedLocation := { v4 := NATIVE_TOKEN_LOCATION }
  let customXcm := createDummyXCM beneficiary
  { destination := destination
  , assets := assets
  , reserveType := reserveType
  , feeAsset := feeAsset
  , feeReserveType := "LocalReserve"
  , customXcm := customXcm
  , weightLimit := "Unlimited" }

/-! ### Driver semantics

The effectful driver is modelled as a trace function.  A dry-run call
either returns a doubly-nested result (`Result<CallDryRunEffects, Error>`
whose `executionResult` is again a result) or throws an exception; the
external world supplies one `DryRunResponse` per call, indexed by the
global call counter. -/

/-- The inner `executionResult` of a dry run (`isOk` / `asErr.toHuman()`
is all the script inspects; error details are kept as a string). -/
inductive ExecutionResult where
  | ok
  | err (details : String)
deriving DecidableEq, Repr

/-- The outer result returned by `api.call.dryRunApi.dryRunCall`. -/
inductive DryRunReturn where
  | ok (executionResult : ExecutionResult)
  | err (details : String)
deriving DecidableEq, Repr

/-- Behaviour of one remote dry-run call: return a value or throw. -/
inductive DryRunResponse where
  | returns (r : DryRunReturn)
  | throws (msg : String)
deriving DecidableEq, Repr

/-- `executionResult.isOk`. -/
def ExecutionResult.isOk : ExecutionResult → Bool
  | .ok => true
  | .err _ => false

/-- `dryRunResult.isOk`. -/
def DryRunReturn.isOk : DryRunReturn → Bool
  | .ok _ => true
  | .err _ => false

/-- `dryRunResult.asOk.executionResult.isOk`; in the script this is only
evaluated after `isOk` (short-circuit `&&`), so the value on the `err`
branch is never observed. -/
def DryRunReturn.execIsOk : DryRunReturn → Bool
  | .ok e => e.isOk
  | .err _ => false

/-- `dryRunResult.asOk.executionResult.asErr.toHuman()`; only reached
when the outer result is Ok and the inner one is Err. -/
def DryRunReturn.execErrDetails : DryRunReturn → String
  | .ok (.err d) => d
  | _ => ""

/-- `dryRunResult.asErr.toHuman()`; only reached when the outer result
is Err. -/
def DryRunReturn.errDetails : DryRunReturn → String
  | .err d => d
  | _ => ""

/-- Observable events of one run, in program order. -/
inductive Event where
  | log (s : String)
  | connect (endpoint : String)
  | dryRunCall (origin : String) (params : TransferParams) (xcmVersion : Nat)
  | statusLine (symbol ordering : String) (success : Bool)
  | errorDetails (details : String)
  | exceptionLog (symbol ordering msg : String)
  | disconnect
  | exitProcess (code : Nat)
deriving DecidableEq, Repr

/-- The `try { ... dryRunCall ... } catch` block of `testAssetOrdering`
(`demo.ts` lines 187-205 resp. 218-236): the call event itself, then
either the SUCCESS/FAILED status line (with error details on failure)
or the exception log. -/
def runDryRunAttempt (resp : DryRunResponse) (symbol ordering : String)
    (origin : String) (params : TransferParams) : List Event :=
  Event.dryRunCall origin params 4 ::
    match resp with
    | .throws msg => [.exceptionLog symbol ordering msg]
    | .returns r =>
        let success := r.isOk && r.execIsOk
        Event.statusLine symbol ordering success ::
          if success then []
          else
            [.errorDetails (if r.isOk then r.execErrDetails else r.errDetails)]

/-- `testAssetOrdering` from `demo.ts` lines 169-237 as a trace
function.  `responses` is the external world's answer to the n-th
dry-run call of the run and `base` the value of the global call counter
on entry (the function performs calls `base` and `base + 1`). -/
def testAssetOrdering (responses : Nat → DryRunResponse) (base : Nat)
    (asset : AssetInfo) (testAccount amount fee : String) : List Event :=
  Event.log ("1. Testing " ++ asset.symbol ++ " with token-first ordering...") ::
  runDryRunAttempt (responses base) asset.symbol "token-first" testAccount
      (createTransferExtrinsic asset.location amount fee "token-first" testAccount) ++
  Event.log ("2. Testing " ++ asset.symbol ++ " with DOT-first ordering...") ::
  runDryRunAttempt (responses (base + 1)) asset.symbol "DOT-first" testAccount
      (createTransferExtrinsic asset.location amount fee "dot-first" testAccount)

/-- The external world of one run: the process environment, the outcome
of connection setup (`new WsProvider` + `ApiPromise.create`), and the
responses to the dry-run calls. -/
structure Env where
  procEnv : String → Option String
  setup : Except String Unit
  responses : Nat → DryRunResponse

/-- The name of the only environment variable the script reads. -/
def POLKADOT_ASSET_HUB_WSS_KEY : String := "POLKADOT_ASSET_HUB_WSS"

/-- The endpoint default literal from `demo.ts` line 249. -/
def DEFAULT_ENDPOINT : String := "wss://polkadot-asset-hub-rpc.polkadot.io"

/-- `process.env.POLKADOT_ASSET_HUB_WSS || "wss://..."` (`demo.ts` line
249): JavaScript `||` takes the right operand when the left one is
falsy, i.e. `undefined` or the empty string. -/
def selectEndpoint (value : Option String) : String :=
  match value with
  | none => DEFAULT_ENDPOINT
  | some s => if s = "" then DEFAULT_ENDPOINT else s

/-- The hardcoded test account of `demo.ts` line 257. -/
def TEST_ACCOUNT : String :=
  "0x460411e07f93dc4bc2b3a6cb67dad89ca26e8a54054d13916f74c982595c2e0e"

/-- The hardcoded transfer amount of `demo.ts` line 258. -/
def TEST_AMOUNT : String := "50000000000"

/-- `demonstrateAssetOrderingBug` from `demo.ts` lines 242-272 as a
trace function.  On setup failure the `catch` logs the error and calls
`process.exit(1)`; on success the two `testAssetOrdering` runs execute
in sequence and the connection is disconnected. -/
def demonstrateAssetOrderingBug (env : Env) : List Event :=
  let endpoint := selectEndpoint (env.procEnv POLKADOT_ASSET_HUB_WSS_KEY)
  Event.log "Polkadot JS API Asset Ordering Bug Demonstration" ::
  Event.log (String.mk (List.replicate 60 '=')) ::
  Event.log "This script demonstrates that asset order matters in transferAssetsUsingTypeAndThen" ::
  Event.log "" ::
  Event.log ("Connecting to Polkadot Asset Hub: " ++ endpoint) ::
    match env.setup with
    | .error msg => [.log ("Error: " ++ msg), .exitProcess 1]
    | .ok _ =>
        Event.connect endpoint ::
        testAssetOrdering env.responses 0 WUD_ASSET TEST_ACCOUNT TEST_AMOUNT "29876830" ++
        testAssetOrdering env.responses 2 KSM_ASSET TEST_ACCOUNT TEST_AMOUNT "18718740000" ++
        [.disconnect]

/-- Recogniser for dry-run-call events. -/
def Event.isDryRunCall : Event → Bool
  | .dryRunCall _ _ _ => true
  | _ => false

/-- Recogniser for connect events. -/
def Event.isConnect : Event → Bool
  | .connect _ => true
  | _ => false

/-- Recogniser for disconnect events. -/
def Event.isDisconnect : Event → Bool
  | .disconnect => true
  | _ => false

/-- Number of remote dry-run calls in a trace. -/
def countDryRunCalls (trace : List Event) : Nat :=
  trace.countP Event.isDryRunCall

/-- The dry-run-call events of a trace, in order. -/
def dryRunCallsOf (trace : List Event) : List Event :=
  trace.filter Event.isDryRunCall

/-! ### Heap model for the two descriptor constants

`demo.ts` contains no assignment to any field of `WUD_ASSET` or
`KSM_ASSET` (the only assignments in the file are to the local
variables `reserveType` and `assets`).  To state the frame property,
the two descriptor heap cells are threaded explicitly through the
operations that can reach them. -/

/-- The heap cells holding the two descriptor constants. -/
structure DescriptorState where
  wud : AssetInfo
  ksm : AssetInfo
deriving DecidableEq, Repr

/-- `createTransferExtrinsic` with the descriptor heap explicit: it
reads `KSM_ASSET.location` (the `==` test on `demo.ts` line 114) and
writes nothing, so the state is returned unchanged. -/
def createTransferExtrinsicSt (st : DescriptorState)
    (tokenLocation : Location) (amount destFee : String)
    (assetOrder : String) (beneficiary : String) :
    DescriptorState × TransferParams :=
  let destination : VersionedLocation :=
    { v4 :=
        { parents := 2
        , interior :=
            .x2 [.globalConsensusKusama, .parachain KUSAMA_ASSET_HUB_PARA_ID] } }
  let reserveType : String :=
    if tokenLocation = st.ksm.location then "DestinationReserve"
    else "LocalReserve"
  let assets : VersionedAssets :=
    if assetOrder = "token-first" then
      { v4 :=
          [ { id := tokenLocation, «fun» := .fungible amount }
          , { id := NATIVE_TOKEN_LOCATION, «fun» := .fungible destFee } ] }
    else
      { v4 :=
          [ { id := NATIVE_TOKEN_LOCATION, «fun» := .fungible destFee }
          , { id := tokenLocation, «fun» := .fungible amount } ] }
  let feeAsset : VersionedLocation := { v4 := NATIVE_TOKEN_LOCATION }
  let customXcm := createDummyXCM beneficiary
  ( st
  , { destination := destination
    , assets := assets
    , reserveType := reserveType
    , feeAsset := feeAsset
    , feeReserveType := "LocalReserve"
    , customXcm := customXcm
    , weightLimit := "Unlimited" } )

/-- On the initial heap, the state-passing embedding computes the same
parameters as the pure one. -/
lemma createTransferExtrinsicSt_agrees (tokenLocation : Location)
    (amount destFee assetOrder beneficiary : String) :
    (createTransferExtrinsicSt { wud := WUD_ASSET, ksm := KSM_ASSET }
        tokenLocation amount destFee assetOrder beneficiary).2 =
      createTransferExtrinsic tokenLocation amount destFee assetOrder
        beneficiary := rfl

/-- `testAssetOrdering` with the descriptor heap explicit: it reads
`asset.location` and `asset.symbol` and builds two extrinsics; the
dry-run calls and console output do not touch the descriptors. -/
def testAssetOrderingSt (st : DescriptorState) (asset : AssetInfo)
    (testAccount amount fee : String) : DescriptorState :=
  let r1 := createTransferExtrinsicSt st asset.location amount fee
    "token-first" testAccount
  let r2 := createTransferExtrinsicSt r1.1 asset.location amount fee
    "dot-first" testAccount
  r2.1

/-- One call of the program's API surface, for arbitrary arguments. -/
inductive ProgramCall where
  | transfer (tokenLocation : Location)
      (amount destFee assetOrder beneficiary : String)
  | testOrdering (asset : AssetInfo) (testAccount amount fee : String)

/-- Effect of one call on the descriptor heap. -/
def applyCall (st : DescriptorState) : ProgramCall → DescriptorState
  | .transfer tok amount destFee assetOrder beneficiary =>
      (createTransferExtrinsicSt st tok amount destFee assetOrder
        beneficiary).1
  | .testOrdering asset testAccount amount fee =>
      testAssetOrderingSt st asset testAccount amount fee

/-- Effect of a sequence of calls on the descriptor heap. -/
def runCalls (st : DescriptorState) : List ProgramCall → DescriptorState
  | [] => st
  | c :: cs => runCalls (applyCall st c) cs

lemma applyCall_frame (st : DescriptorState) (c : ProgramCall) :
    applyCall st c = st := by
  cases c <;> rfl

lemma runCalls_frame (calls : List ProgramCall) :
    ∀ st : DescriptorState, runCalls st calls = st := by
  induction calls with
  | nil => intro st; rfl
  | cons c cs ih =>
      intro st
      rw [runCalls, applyCall_frame]
      exact ih st

/-! ### Helper lemmas on traces -/

lemma countDryRunCalls_append (a b : List Event) :
    countDryRunCalls (a ++ b) = countDryRunCalls a + countDryRunCalls b := by
  simp [countDryRunCalls, List.countP_append]

lemma countDryRunCalls_cons_log (s : String) (l : List Event) :
    countDryRunCalls (Event.log s :: l) = countDryRunCalls l := by
  simp [countDryRunCalls, List.countP_cons, Event.isDryRunCall]

lemma countDryRunCalls_runDryRunAttempt (resp : DryRunResponse)
    (symbol ordering origin : String) (params : TransferParams) :
    countDryRunCalls (runDryRunAttempt resp symbol ordering origin params)
      = 1 := by
  cases resp with
  | throws msg => rfl
  | returns r =>
      cases r with
      | ok e => cases e <;> rfl
      | err d => rfl

lemma countDryRunCalls_testAssetOrdering (responses : Nat → DryRunResponse)
    (base : Nat) (asset : AssetInfo) (testAccount amount fee : String) :
    countDryRunCalls
      (testAssetOrdering responses base asset testAccount amount fee) = 2 := by
  rw [testAssetOrdering, countDryRunCalls_append,
    countDryRunCalls_cons_log, countDryRunCalls_cons_log,
    countDryRunCalls_runDryRunAttempt, countDryRunCalls_runDryRunAttempt]

lemma dryRunCallsOf_append (a b : List Event) :
    dryRunCallsOf (a ++ b) = dryRunCallsOf a ++ dryRunCallsOf b := by
  simp [dryRunCallsOf, List.filter_append]

lemma dryRunCallsOf_cons_log (s : String) (l : List Event) :
    dryRunCallsOf (Event.log s :: l) = dryRunCallsOf l := by
  simp [dryRunCallsOf, List.filter_cons, Event.isDryRunCall]

lemma dryRunCallsOf_runDryRunAttempt (resp : DryRunResponse)
    (symbol ordering origin : String) (params : TransferParams) :
    dryRunCallsOf (runDryRunAttempt resp symbol ordering origin params)
      = [Event.dryRunCall origin params 4] := by
  cases resp with
  | throws msg => rfl
  | returns r =>
      cases r with
      | ok e => cases e <;> rfl
      | err d => rfl

lemma dryRunCallsOf_testAssetOrdering (responses : Nat → DryRunResponse)
    (base : Nat) (asset : AssetInfo) (testAccount amount fee : String) :
    dryRunCallsOf
        (testAssetOrdering responses base asset testAccount amount fee) =
      [ Event.dryRunCall testAccount
          (createTransferExtrinsic asset.location amount fee "token-first"
            testAccount) 4
      , Event.dryRunCall testAccount
          (createTransferExtrinsic asset.location amount fee "dot-first"
            testAccount) 4 ] := by
  rw [testAssetOrdering, dryRunCallsOf_append,
    dryRunCallsOf_cons_log, dryRunCallsOf_cons_log,
    dryRunCallsOf_runDryRunAttempt, dryRunCallsOf_runDryRunAttempt]
  rfl

/-! ### Claim theorems -/

/-- Claim C1: for every token location, amount, destination fee and
beneficiary, the parameter structures produced with order flag
`token-first` and `dot-first` carry the same two asset entries in
swapped order, and agree on destination, reserve type, fee asset, fee
reserve type, custom XCM and weight limit. -/
theorem C1_orderings_differ_only_in_asset_order (tokenLocation : Location)
    (amount destFee beneficiary : String) :
    (∃ a b : AssetV4,
      (createTransferExtrinsic tokenLocation amount destFee "token-first"
          beneficiary).assets.v4 = [a, b] ∧
      (createTransferExtrinsic tokenLocation amount destFee "dot-first"
          beneficiary).assets.v4 = [b, a]) ∧
    (createTransferExtrinsic tokenLocation amount destFee "token-first"
        beneficiary).destination =
      (createTransferExtrinsic tokenLocation amount destFee "dot-first"
        beneficiary).destination ∧
    (createTransferExtrinsic tokenLocation amount destFee "token-first"
        beneficiary).reserveType =
      (createTransferExtrinsic tokenLocation amount destFee "dot-first"
        beneficiary).reserveType ∧
    (createTransferExtrinsic tokenLocation amount destFee "token-first"
        beneficiary).feeAsset =
      (createTransferExtrinsic tokenLocation amount destFee "dot-first"
        beneficiary).feeAsset ∧
    (createTransferExtrinsic tokenLocation amount destFee "token-first"
        beneficiary).feeReserveType =
      (createTransferExtrinsic tokenLocation amount destFee "dot-first"
        beneficiary).feeReserveType ∧
    (createTransferExtrinsic tokenLocation amount destFee "token-first"
        beneficiary).customXcm =
      (createTransferExtrinsic tokenLocation amount destFee "dot-first"
        beneficiary).customXcm ∧
    (createTransferExtrinsic tokenLocation amount destFee "token-first"
        beneficiary).weightLimit =
      (createTransferExtrinsic tokenLocation amount destFee "dot-first"
        beneficiary).weightLimit := by
  refine ⟨⟨{ id := tokenLocation, «fun» := .fungible amount },
    { id := NATIVE_TOKEN_LOCATION, «fun» := .fungible destFee },
    rfl, rfl⟩, rfl, rfl, rfl, rfl, rfl, rfl⟩

/-- Claim C2: the assets parameter is one of exactly two literal
shapes selected by the order flag: `[token, DOT]` for `token-first`
and `[DOT, token]` for `dot-first`, the token entry carrying
`Fungible amount` and the DOT entry `Fungible destFee`. -/
theorem C2_assets_literal_shapes (tokenLocation : Location)
    (amount destFee beneficiary : String) :
    (createTransferExtrinsic tokenLocation amount destFee "token-first"
        beneficiary).assets =
      { v4 := [ { id := tokenLocation, «fun» := .fungible amount }
              , { id := NATIVE_TOKEN_LOCATION
                , «fun» := .fungible destFee } ] } ∧
    (createTransferExtrinsic tokenLocation amount destFee "dot-first"
        beneficiary).assets =
      { v4 := [ { id := NATIVE_TOKEN_LOCATION
                , «fun» := .fungible destFee }
              , { id := tokenLocation, «fun» := .fungible amount } ] } :=
  ⟨rfl, rfl⟩

/-- Claim C10: the reserve type is `DestinationReserve` exactly when
the supplied token location is `KSM_ASSET`'s location and
`LocalReserve` otherwise, while the fee asset is always the native DOT
location with fee reserve type `LocalReserve` and weight limit
`Unlimited`, independent of the order flag. -/
theorem C10_reserve_and_fee_fields (tokenLocation : Location)
    (amount destFee assetOrder beneficiary : String) :
    ((createTransferExtrinsic tokenLocation amount destFee assetOrder
        beneficiary).reserveType = "DestinationReserve" ↔
      tokenLocation = KSM_ASSET.location) ∧
    (tokenLocation ≠ KSM_ASSET.location →
      (createTransferExtrinsic tokenLocation amount destFee assetOrder
        beneficiary).reserveType = "LocalReserve") ∧
    (createTransferExtrinsic tokenLocation amount destFee assetOrder
        beneficiary).feeAsset = { v4 := NATIVE_TOKEN_LOCATION } ∧
    (createTransferExtrinsic tokenLocation amount destFee assetOrder
        beneficiary).feeReserveType = "LocalReserve" ∧
    (createTransferExtrinsic tokenLocation amount destFee assetOrder
        beneficiary).weightLimit = "Unlimited" := by
  have hne : ("LocalReserve" : String) ≠ "DestinationReserve" := by decide
  by_cases h : tokenLocation = KSM_ASSET.location
  · exact ⟨by simp [createTransferExtrinsic, h],
      fun hc => absurd h hc, rfl, rfl, rfl⟩
  · exact ⟨by simp [createTransferExtrinsic, h, hne],
      fun _ => by simp [createTransferExtrinsic, h], rfl, rfl, rfl⟩

/-- Witness for C10 at the two concrete descriptor locations. -/
theorem C10_reserve_and_fee_fields_witness :
    (createTransferExtrinsic KSM_ASSET.location "50000000000" "18718740000"
      "dot-first" TEST_ACCOUNT).reserveType = "DestinationReserve" ∧
    (createTransferExtrinsic WUD_ASSET.location "50000000000" "29876830"
      "token-first" TEST_ACCOUNT).reserveType = "LocalReserve" :=
  ⟨(C10_reserve_and_fee_fields KSM_ASSET.location "50000000000"
      "18718740000" "dot-first" TEST_ACCOUNT).1.mpr rfl,
   (C10_reserve_and_fee_fields WUD_ASSET.location "50000000000"
      "29876830" "token-first" TEST_ACCOUNT).2.1 (by decide)⟩

/-! ### Concrete worlds used as witnesses and counterexamples -/

/-- A world where setup succeeds and every dry run fully succeeds. -/
def allOkEnv : Env :=
  { procEnv := fun _ => none
  , setup := .ok ()
  , responses := fun _ => .returns (.ok .ok) }

/-- A world where connection setup fails. -/
def failSetupEnv : Env :=
  { procEnv := fun _ => none
  , setup := .error "connection refused"
  , responses := fun _ => .returns (.ok .ok) }

/-- A world where `POLKADOT_ASSET_HUB_WSS` is set to the empty string. -/
def emptyVarEnv : Env :=
  { procEnv := fun k => if k = POLKADOT_ASSET_HUB_WSS_KEY then some "" else none
  , setup := .ok ()
  , responses := fun _ => .returns (.ok .ok) }

/-- Claim C3 counterexample: in a complete run of the driver with all
dry runs succeeding, the remote dry-run endpoint is called four times,
not twice (`testAssetOrdering` performs two calls and the driver runs
it once per asset for two assets). -/
theorem C3_counterexample_four_calls :
    countDryRunCalls (demonstrateAssetOrderingBug allOkEnv) = 4 ∧
    countDryRunCalls (demonstrateAssetOrderingBug allOkEnv) ≠ 2 := by
  decide

/-- Claim C3 (amended): over one complete run of the driver in which
setup succeeds, the remote dry-run endpoint is called exactly four
times — twice per asset for the two hardcoded assets. -/
theorem C3_amended_exactly_four_calls (env : Env)
    (h : env.setup = Except.ok ()) :
    countDryRunCalls (demonstrateAssetOrderingBug env) = 4 := by
  simp only [demonstrateAssetOrderingBug, h]
  rw [countDryRunCalls_cons_log, countDryRunCalls_cons_log,
    countDryRunCalls_cons_log, countDryRunCalls_cons_log,
    countDryRunCalls_cons_log, countDryRunCalls_append,
    countDryRunCalls_append, countDryRunCalls_testAssetOrdering]
  have hconn : countDryRunCalls
      (Event.connect (selectEndpoint
        (env.procEnv POLKADOT_ASSET_HUB_WSS_KEY)) ::
        testAssetOrdering env.responses 0 WUD_ASSET TEST_ACCOUNT
          TEST_AMOUNT "29876830") =
      countDryRunCalls (testAssetOrdering env.responses 0 WUD_ASSET
        TEST_ACCOUNT TEST_AMOUNT "29876830") := by
    simp [countDryRunCalls, List.countP_cons, Event.isDryRunCall]
  rw [hconn, countDryRunCalls_testAssetOrdering]
  rfl

/-- Witness for the amended C3 at a concrete world. -/
theorem C3_amended_exactly_four_calls_witness :
    countDryRunCalls (demonstrateAssetOrderingBug allOkEnv) = 4 :=
  C3_amended_exactly_four_calls allOkEnv rfl

/-- Claim C4: a dry-run submission is printed as SUCCESS exactly when
the returned result is Ok and its `executionResult` is Ok; otherwise it
is printed as FAILED together with the error details taken from
`executionResult.asErr` when the outer result is Ok and from the outer
`asErr` otherwise. -/
theorem C4_outcome_classification (r : DryRunReturn)
    (symbol ordering origin : String) (params : TransferParams) :
    (Event.statusLine symbol ordering true ∈
        runDryRunAttempt (.returns r) symbol ordering origin params ↔
      r = .ok .ok) ∧
    (r = DryRunReturn.ok .ok →
      runDryRunAttempt (.returns r) symbol ordering origin params =
        [ .dryRunCall origin params 4
        , .statusLine symbol ordering true ]) ∧
    (∀ d, r = DryRunReturn.ok (.err d) →
      runDryRunAttempt (.returns r) symbol ordering origin params =
        [ .dryRunCall origin params 4
        , .statusLine symbol ordering false
        , .errorDetails d ]) ∧
    (∀ d, r = DryRunReturn.err d →
      runDryRunAttempt (.returns r) symbol ordering origin params =
        [ .dryRunCall origin params 4
        , .statusLine symbol ordering false
        , .errorDetails d ]) := by
  cases r with
  | ok e =>
      cases e with
      | ok =>
          refine ⟨?_, fun _ => rfl, ?_, ?_⟩
          · simp [runDryRunAttempt, DryRunReturn.isOk,
              DryRunReturn.execIsOk, ExecutionResult.isOk]
          · intro d hd; simp at hd
          · intro d hd; simp at hd
      | err d0 =>
          refine ⟨?_, ?_, ?_, ?_⟩
          · simp [runDryRunAttempt, DryRunReturn.isOk,
              DryRunReturn.execIsOk, ExecutionResult.isOk]
          · intro hd; simp at hd
          · intro d hd
            injection hd with hd1
            injection hd1 with hd2
            subst hd2
            rfl
          · intro d hd; simp at hd
  | err d0 =>
      refine ⟨?_, ?_, ?_, ?_⟩
      · simp [runDryRunAttempt, DryRunReturn.isOk, DryRunReturn.execIsOk]
      · intro hd; simp at hd
      · intro d hd; simp at hd
      · intro d hd
        injection hd with hd1
        subst hd1
        rfl

/-- Witness for C4: a concrete failed dry run with Ok outer result is
printed FAILED with the inner execution error's details. -/
theorem C4_outcome_classification_witness :
    runDryRunAttempt (.returns (.ok (.err "Filtered"))) "WUD"
        "token-first" TEST_ACCOUNT
        (createTransferExtrinsic WUD_ASSET.location "50000000000"
          "29876830" "token-first" TEST_ACCOUNT) =
      [ .dryRunCall TEST_ACCOUNT
          (createTransferExtrinsic WUD_ASSET.location "50000000000"
            "29876830" "token-first" TEST_ACCOUNT) 4
      , .statusLine "WUD" "token-first" false
      , .errorDetails "Filtered" ] :=
  (C4_outcome_classification (.ok (.err "Filtered")) "WUD" "token-first"
    TEST_ACCOUNT
    (createTransferExtrinsic WUD_ASSET.location "50000000000" "29876830"
      "token-first" TEST_ACCOUNT)).2.2.1 "Filtered" rfl

/-- Claim C5: each dry-run call sits in its own try/catch — a thrown
exception is logged with its message and execution continues, so both
calls of `testAssetOrdering` always happen — while a setup failure is
caught at top level, logged, and terminates the process with exit code
1 (in particular without any dry-run call). -/
theorem C5_try_catch_per_call_and_top_level_exit :
    (∀ (responses : Nat → DryRunResponse) (base : Nat)
        (asset : AssetInfo) (testAccount amount fee msg : String),
      responses base = .throws msg →
        Event.exceptionLog asset.symbol "token-first" msg ∈
          testAssetOrdering responses base asset testAccount amount fee ∧
        countDryRunCalls
          (testAssetOrdering responses base asset testAccount amount fee)
          = 2) ∧
    (∀ (responses : Nat → DryRunResponse) (base : Nat)
        (asset : AssetInfo) (testAccount amount fee msg : String),
      responses (base + 1) = .throws msg →
        Event.exceptionLog asset.symbol "DOT-first" msg ∈
          testAssetOrdering responses base asset testAccount amount fee ∧
        countDryRunCalls
          (testAssetOrdering responses base asset testAccount amount fee)
          = 2) ∧
    (∀ (env : Env) (msg : String), env.setup = .error msg →
      Event.log ("Error: " ++ msg) ∈ demonstrateAssetOrderingBug env ∧
      (demonstrateAssetOrderingBug env).getLast? =
        some (.exitProcess 1) ∧
      countDryRunCalls (demonstrateAssetOrderingBug env) = 0) := by
  refine ⟨?_, ?_, ?_⟩
  · intro responses base asset testAccount amount fee msg h
    refine ⟨?_, countDryRunCalls_testAssetOrdering _ _ _ _ _ _⟩
    simp [testAssetOrdering, h, runDryRunAttempt]
  · intro responses base asset testAccount amount fee msg h
    refine ⟨?_, countDryRunCalls_testAssetOrdering _ _ _ _ _ _⟩
    simp [testAssetOrdering, h, runDryRunAttempt]
  · intro env msg h
    refine ⟨?_, ?_, ?_⟩ <;> simp only [demonstrateAssetOrderingBug, h]
    · simp
    · rfl
    · rfl

/-- Witness for C5: an exception in the first dry run of a concrete
world is logged and the second call still happens, and a concrete
setup failure ends the trace with exit code 1. -/
theorem C5_try_catch_witness :
    (Event.exceptionLog WUD_ASSET.symbol "token-first" "boom" ∈
        testAssetOrdering (fun _ => .throws "boom") 0 WUD_ASSET
          TEST_ACCOUNT "50000000000" "29876830" ∧
      countDryRunCalls (testAssetOrdering (fun _ => .throws "boom") 0
        WUD_ASSET TEST_ACCOUNT "50000000000" "29876830") = 2) ∧
    (Event.log ("Error: " ++ "connection refused") ∈
        demonstrateAssetOrderingBug failSetupEnv ∧
      (demonstrateAssetOrderingBug failSetupEnv).getLast? =
        some (.exitProcess 1) ∧
      countDryRunCalls (demonstrateAssetOrderingBug failSetupEnv) = 0) :=
  ⟨C5_try_catch_per_call_and_top_level_exit.1 (fun _ => .throws "boom")
      0 WUD_ASSET TEST_ACCOUNT "50000000000" "29876830" "boom" rfl,
    C5_try_catch_per_call_and_top_level_exit.2.2 failSetupEnv
      "connection refused" rfl⟩

/-- Claim C6: in a run whose setup succeeds, the dry-run calls of the
trace are exactly, and in this order: WUD token-first, WUD DOT-first,
KSM token-first, KSM DOT-first, each awaited before the next appears
(the trace is sequential by construction: the response to a call is
consumed before any later event). -/
theorem C6_calls_strictly_sequential (env : Env)
    (h : env.setup = Except.ok ()) :
    dryRunCallsOf (demonstrateAssetOrderingBug env) =
      [ Event.dryRunCall TEST_ACCOUNT
          (createTransferExtrinsic WUD_ASSET.location TEST_AMOUNT
            "29876830" "token-first" TEST_ACCOUNT) 4
      , Event.dryRunCall TEST_ACCOUNT
          (createTransferExtrinsic WUD_ASSET.location TEST_AMOUNT
            "29876830" "dot-first" TEST_ACCOUNT) 4
      , Event.dryRunCall TEST_ACCOUNT
          (createTransferExtrinsic KSM_ASSET.location TEST_AMOUNT
            "18718740000" "token-first" TEST_ACCOUNT) 4
      , Event.dryRunCall TEST_ACCOUNT
          (createTransferExtrinsic KSM_ASSET.location TEST_AMOUNT
            "18718740000" "dot-first" TEST_ACCOUNT) 4 ] := by
  simp only [demonstrateAssetOrderingBug, h]
  rw [dryRunCallsOf_cons_log, dryRunCallsOf_cons_log,
    dryRunCallsOf_cons_log, dryRunCallsOf_cons_log,
    dryRunCallsOf_cons_log, dryRunCallsOf_append, dryRunCallsOf_append]
  have hconn : dryRunCallsOf
      (Event.connect (selectEndpoint
        (env.procEnv POLKADOT_ASSET_HUB_WSS_KEY)) ::
        testAssetOrdering env.responses 0 WUD_ASSET TEST_ACCOUNT
          TEST_AMOUNT "29876830") =
      dryRunCallsOf (testAssetOrdering env.responses 0 WUD_ASSET
        TEST_ACCOUNT TEST_AMOUNT "29876830") := by
    simp [dryRunCallsOf, List.filter_cons, Event.isDryRunCall]
  rw [hconn, dryRunCallsOf_testAssetOrdering,
    dryRunCallsOf_testAssetOrdering]
  rfl

/-- Witness for C6 at a concrete world. -/
theorem C6_calls_strictly_sequential_witness :
    dryRunCallsOf (demonstrateAssetOrderingBug allOkEnv) =
      [ Event.dryRunCall TEST_ACCOUNT
          (createTransferExtrinsic WUD_ASSET.location TEST_AMOUNT
            "29876830" "token-first" TEST_ACCOUNT) 4
      , Event.dryRunCall TEST_ACCOUNT
          (createTransferExtrinsic WUD_ASSET.location TEST_AMOUNT
            "29876830" "dot-first" TEST_ACCOUNT) 4
      , Event.dryRunCall TEST_ACCOUNT
          (createTransferExtrinsic KSM_ASSET.location TEST_AMOUNT
            "18718740000" "token-first" TEST_ACCOUNT) 4
      , Event.dryRunCall TEST_ACCOUNT
          (createTransferExtrinsic KSM_ASSET.location TEST_AMOUNT
            "18718740000" "dot-first" TEST_ACCOUNT) 4 ] :=
  C6_calls_strictly_sequential allOkEnv rfl

lemma countP_runDryRunAttempt_eq_zero (q : Event → Bool)
    (hcall : ∀ o p n, q (.dryRunCall o p n) = false)
    (hstatus : ∀ s o b, q (.statusLine s o b) = false)
    (herr : ∀ d, q (.errorDetails d) = false)
    (hexc : ∀ s o m, q (.exceptionLog s o m) = false)
    (resp : DryRunResponse) (symbol ordering origin : String)
    (params : TransferParams) :
    (runDryRunAttempt resp symbol ordering origin params).countP q = 0 := by
  cases resp with
  | throws m =>
      simp [runDryRunAttempt, List.countP_cons, hcall, hexc]
  | returns r =>
      cases r with
      | ok e =>
          cases e <;>
            simp [runDryRunAttempt, List.countP_cons, hcall, hstatus,
              herr, DryRunReturn.isOk, DryRunReturn.execIsOk,
              ExecutionResult.isOk]
      | err d =>
          simp [runDryRunAttempt, List.countP_cons, hcall, hstatus,
            herr, DryRunReturn.isOk, DryRunReturn.execIsOk]

lemma countP_testAssetOrdering_eq_zero (q : Event → Bool)
    (hlog : ∀ s, q (.log s) = false)
    (hcall : ∀ o p n, q (.dryRunCall o p n) = false)
    (hstatus : ∀ s o b, q (.statusLine s o b) = false)
    (herr : ∀ d, q (.errorDetails d) = false)
    (hexc : ∀ s o m, q (.exceptionLog s o m) = false)
    (responses : Nat → DryRunResponse) (base : Nat) (asset : AssetInfo)
    (testAccount amount fee : String) :
    (testAssetOrdering responses base asset testAccount amount fee).countP
      q = 0 := by
  rw [testAssetOrdering, List.countP_append]
  simp [List.countP_cons, hlog,
    countP_runDryRunAttempt_eq_zero q hcall hstatus herr hexc]

/-- Claim C7 counterexample: in an execution whose connection setup
fails, no connection is opened and none is closed — the process exits
with code 1 — so "exactly one connection is opened and closed in every
execution" is false. -/
theorem C7_counterexample_no_disconnect_on_failed_setup :
    Event.disconnect ∉ demonstrateAssetOrderingBug failSetupEnv ∧
    (demonstrateAssetOrderingBug failSetupEnv).countP Event.isConnect
      = 0 ∧
    (demonstrateAssetOrderingBug failSetupEnv).getLast? =
      some (.exitProcess 1) := by
  decide

/-- Claim C7 (amended): in every execution whose setup succeeds,
exactly one connection is opened, every dry-run call occurs between
the connect and the disconnect, and the trace ends with the single
disconnect; an execution whose setup fails exits with code 1 without
opening or closing a connection. -/
theorem C7_amended_single_connection (env : Env)
    (h : env.setup = Except.ok ()) :
    ∃ pre mid : List Event,
      demonstrateAssetOrderingBug env =
        pre ++ Event.connect (selectEndpoint
          (env.procEnv POLKADOT_ASSET_HUB_WSS_KEY)) ::
          (mid ++ [Event.disconnect]) ∧
      pre.countP Event.isConnect = 0 ∧
      pre.countP Event.isDisconnect = 0 ∧
      countDryRunCalls pre = 0 ∧
      mid.countP Event.isConnect = 0 ∧
      mid.countP Event.isDisconnect = 0 ∧
      countDryRunCalls mid = 4 := by
  refine ⟨[ Event.log "Polkadot JS API Asset Ordering Bug Demonstration"
          , Event.log (String.mk (List.replicate 60 '='))
          , Event.log "This script demonstrates that asset order matters in transferAssetsUsingTypeAndThen"
          , Event.log ""
          , Event.log ("Connecting to Polkadot Asset Hub: " ++
              selectEndpoint (env.procEnv POLKADOT_ASSET_HUB_WSS_KEY)) ]
        , testAssetOrdering env.responses 0 WUD_ASSET TEST_ACCOUNT
            TEST_AMOUNT "29876830" ++
          testAssetOrdering env.responses 2 KSM_ASSET TEST_ACCOUNT
            TEST_AMOUNT "18718740000"
        , ?_, rfl, rfl, rfl, ?_, ?_, ?_⟩
  · simp only [demonstrateAssetOrderingBug, h]
    simp [List.append_assoc]
  · rw [List.countP_append]
    rw [countP_testAssetOrdering_eq_zero Event.isConnect
        (fun _ => rfl) (fun _ _ _ => rfl) (fun _ _ _ => rfl)
        (fun _ => rfl) (fun _ _ _ => rfl),
      countP_testAssetOrdering_eq_zero Event.isConnect
        (fun _ => rfl) (fun _ _ _ => rfl) (fun _ _ _ => rfl)
        (fun _ => rfl) (fun _ _ _ => rfl)]
  · rw [List.countP_append]
    rw [countP_testAssetOrdering_eq_zero Event.isDisconnect
        (fun _ => rfl) (fun _ _ _ => rfl) (fun _ _ _ => rfl)
        (fun _ => rfl) (fun _ _ _ => rfl),
      countP_testAssetOrdering_eq_zero Event.isDisconnect
        (fun _ => rfl) (fun _ _ _ => rfl) (fun _ _ _ => rfl)
        (fun _ => rfl) (fun _ _ _ => rfl)]
  · rw [countDryRunCalls_append, countDryRunCalls_testAssetOrdering,
      countDryRunCalls_testAssetOrdering]

/-- Witness for the amended C7 at a concrete world. -/
theorem C7_amended_single_connection_witness :
    ∃ pre mid : List Event,
      demonstrateAssetOrderingBug allOkEnv =
        pre ++ Event.connect (selectEndpoint
          (allOkEnv.procEnv POLKADOT_ASSET_HUB_WSS_KEY)) ::
          (mid ++ [Event.disconnect]) ∧
      pre.countP Event.isConnect = 0 ∧
      pre.countP Event.isDisconnect = 0 ∧
      countDryRunCalls pre = 0 ∧
      mid.countP Event.isConnect = 0 ∧
      mid.countP Event.isDisconnect = 0 ∧
      countDryRunCalls mid = 4 :=
  C7_amended_single_connection allOkEnv rfl

/-- Claim C8 counterexample: with `POLKADOT_ASSET_HUB_WSS` set to the
empty string, the driver connects to the default endpoint, not to the
variable's value, because JavaScript `||` treats the empty string as
falsy. -/
theorem C8_counterexample_empty_string_ignored :
    emptyVarEnv.procEnv POLKADOT_ASSET_HUB_WSS_KEY = some "" ∧
    Event.connect DEFAULT_ENDPOINT ∈
      demonstrateAssetOrderingBug emptyVarEnv ∧
    Event.connect "" ∉ demonstrateAssetOrderingBug emptyVarEnv := by
  decide

/-- Claim C8 (amended): if `POLKADOT_ASSET_HUB_WSS` is set to a
non-empty string its value is used as the endpoint; if it is unset or
set to the empty string the default literal is used; and the trace
depends on no part of the process environment other than that
variable. -/
theorem C8_amended_endpoint_selection :
    (∀ s : String, s ≠ "" → selectEndpoint (some s) = s) ∧
    selectEndpoint none = DEFAULT_ENDPOINT ∧
    selectEndpoint (some "") = DEFAULT_ENDPOINT ∧
    (∀ e₁ e₂ : Env,
      e₁.procEnv POLKADOT_ASSET_HUB_WSS_KEY =
        e₂.procEnv POLKADOT_ASSET_HUB_WSS_KEY →
      e₁.setup = e₂.setup → e₁.responses = e₂.responses →
      demonstrateAssetOrderingBug e₁ = demonstrateAssetOrderingBug e₂) := by
  refine ⟨?_, rfl, rfl, ?_⟩
  · intro s hs
    simp [selectEndpoint, hs]
  · intro e₁ e₂ h1 h2 h3
    simp only [demonstrateAssetOrderingBug, h1, h2, h3]

/-- Witness for the amended C8: a non-empty value is taken verbatim. -/
theorem C8_amended_endpoint_selection_witness :
    selectEndpoint (some "wss://example.org") = "wss://example.org" :=
  C8_amended_endpoint_selection.1 "wss://example.org" (by decide)

/-- Claim C9: the descriptor constants `WUD_ASSET` and `KSM_ASSET` are
never mutated: after any sequence of calls to `createTransferExtrinsic`
or `testAssetOrdering` (with arbitrary arguments), both heap cells — in
particular symbol, decimals, location and token address of each — still
hold their initial literal values. -/
theorem C9_descriptors_never_mutated (calls : List ProgramCall) :
    runCalls { wud := WUD_ASSET, ksm := KSM_ASSET } calls =
      { wud := WUD_ASSET, ksm := KSM_ASSET } ∧
    (runCalls { wud := WUD_ASSET, ksm := KSM_ASSET } calls).wud.symbol
      = "WUD" ∧
    (runCalls { wud := WUD_ASSET, ksm := KSM_ASSET } calls).wud.decimals
      = 10 ∧
    (runCalls { wud := WUD_ASSET, ksm := KSM_ASSET } calls).wud.token
      = "0x5fdcd48f09fb67de3d202cd854b372aec1100ed5" ∧
    (runCalls { wud := WUD_ASSET, ksm := KSM_ASSET } calls).wud.location
      = { parents := 0
        , interior := .x2 [.palletInstance 50, .generalIndex 31337] } ∧
    (runCalls { wud := WUD_ASSET, ksm := KSM_ASSET } calls).ksm.symbol
      = "KSM" ∧
    (runCalls { wud := WUD_ASSET, ksm := KSM_ASSET } calls).ksm.decimals
      = 12 ∧
    (runCalls { wud := WUD_ASSET, ksm := KSM_ASSET } calls).ksm.token
      = "0x12bbfdc9e813614eef8dc8a2560b0efbeaf7c2ab" ∧
    (runCalls { wud := WUD_ASSET, ksm := KSM_ASSET } calls).ksm.location
      = { parents := 2, interior := .x1 [.globalConsensusKusama] } := by
  have h := runCalls_frame calls { wud := WUD_ASSET, ksm := KSM_ASSET }
  exact ⟨h, by rw [h]; rfl, by rw [h]; rfl, by rw [h]; rfl,
    by rw [h]; rfl, by rw [h]; rfl, by rw [h]; rfl, by rw [h]; rfl,
    by rw [h]; rfl⟩

end Demo
